import Mathlib

/-!
Verification of the fatras page-fault tracer against its specification.

The Python sources are shallowly embedded:
pure functions become Lean functions, Python exceptions become `Except`,
Python dicts become insertion-ordered association lists, Python sets become
membership-deduplicated lists (mirroring the membership checks the source
performs), and file- or signal-driven state becomes explicit state passing.
-/

/- ===================== src/common.py : FaultUtils ===================== -/

def VM_FAULT_OOM : Nat := 0x000001
def VM_FAULT_SIGBUS : Nat := 0x000002
def VM_FAULT_MAJOR : Nat := 0x000004
def VM_FAULT_HWPOISON : Nat := 0x000010
def VM_FAULT_HWPOISON_LARGE : Nat := 0x000020
def VM_FAULT_SIGSEGV : Nat := 0x000040
def VM_FAULT_RETRY : Nat := 0x000400
def VM_FAULT_FALLBACK : Nat := 0x000800
def VM_FAULT_DONE_COW : Nat := 0x001000

def VM_FAULT_ERROR : Nat :=
  VM_FAULT_OOM ||| VM_FAULT_SIGBUS ||| VM_FAULT_SIGSEGV ||| VM_FAULT_HWPOISON |||
  VM_FAULT_HWPOISON_LARGE ||| VM_FAULT_FALLBACK

def FAULT_FLAG_WRITE : Nat := 1
def FAULT_FLAG_TRIED : Nat := 32
def FAULT_FLAG_USER : Nat := 64

/-- FaultUtils.should_trace (src/common.py:32-45). -/
def should_trace (ret flags : Nat) : Bool :=
  if ret &&& VM_FAULT_RETRY != 0 then false
  else if ret &&& VM_FAULT_ERROR != 0 then false
  else true

/-- FaultUtils.is_major (src/common.py:47-56); the ValueError is an
`Except.error`. -/
def is_major (ret flags : Nat) : Except String Bool :=
  if !should_trace ret flags then
    Except.error "ValueError: should not trace this fault"
  else
    Except.ok (ret &&& VM_FAULT_MAJOR != 0 || flags &&& FAULT_FLAG_TRIED != 0)

/-- FaultUtils.is_cow (src/common.py:58-71); the ValueError is an
`Except.error`. -/
def is_cow (ret flags : Nat) : Except String Bool :=
  if !should_trace ret flags then
    Except.error "ValueError: should not trace this fault"
  else
    Except.ok (flags &&& (FAULT_FLAG_WRITE ||| FAULT_FLAG_USER) != 0 ||
      ret &&& VM_FAULT_DONE_COW != 0)

/-- Fault.test_type (src/common.py:90-105), with the possible ValueError of
the `is_major` call threaded through `Except`. -/
def test_type_exc (ret flags : Nat) (error : Int) : Except String String :=
  if !should_trace ret flags then Except.ok "ignore"
  else if error = 7 then Except.ok "cow"
  else
    match is_major ret flags with
    | Except.error e => Except.error e
    | Except.ok true => Except.ok "maj"
    | Except.ok false => Except.ok "min"

/-- The total classification function; `c9_total` proves it agrees with
`test_type_exc` on every input, so the parser below may use it. -/
def test_type (ret flags : Nat) (error : Int) : String :=
  if !should_trace ret flags then "ignore"
  else if error = 7 then "cow"
  else if ret &&& VM_FAULT_MAJOR != 0 || flags &&& FAULT_FLAG_TRIED != 0 then "maj"
  else "min"

/-- Claim C1: Fault.test_type follows exactly the decision chain of the
specification: RETRY or any terminal-error bit in the return value gives
category ignore; otherwise error code 0x7 gives cow; otherwise MAJOR in the
return value or TRIED in the flags gives maj; otherwise min.  The two
section-8 scenarios are included: error=0x7 with ret=0x0 yields cow for any
flags, and flags containing TRIED (0x20) with ret=0x0 and error=0x0 yields
maj. -/
theorem c1_test_type_chain : ∀ (ret flags : Nat) (error : Int),
    (test_type_exc ret flags error = Except.ok (
      if ret &&& 0x400 != 0 ||
         ret &&& (0x1 ||| 0x2 ||| 0x40 ||| 0x10 ||| 0x20 ||| 0x800) != 0 then
        "ignore"
      else if error = 7 then "cow"
      else if ret &&& 0x4 != 0 || flags &&& 0x20 != 0 then "maj"
      else "min")) ∧
    (∀ flags2 : Nat, test_type_exc 0 flags2 7 = Except.ok "cow") ∧
    test_type_exc 0 0x20 0 = Except.ok "maj" := by
  intro ret flags error
  refine ⟨?_, ?_, ?_⟩
  · unfold test_type_exc is_major should_trace
    unfold VM_FAULT_RETRY VM_FAULT_ERROR VM_FAULT_OOM VM_FAULT_SIGBUS
      VM_FAULT_SIGSEGV VM_FAULT_HWPOISON VM_FAULT_HWPOISON_LARGE
      VM_FAULT_FALLBACK VM_FAULT_MAJOR FAULT_FLAG_TRIED
    by_cases h1 : ret &&& 1024 = 0
    · by_cases h2 : ret &&& 2163 = 0
      · by_cases h3 : error = 7
        · simp [h1, h2, h3]
        · by_cases h4 : ret &&& 4 = 0
          · by_cases h5 : flags &&& 32 = 0
            · simp [h1, h2, h3, h4, h5]
            · have h5b : (flags &&& 32 != 0) = true := by simpa using h5
              simp [h1, h2, h3, h4, h5b]
          · have h4b : (ret &&& 4 != 0) = true := by simpa using h4
            simp [h1, h2, h3, h4b]
      · simp [h1, h2]
    · simp [h1]
  · intro flags2
    unfold test_type_exc should_trace
    simp [VM_FAULT_RETRY, VM_FAULT_ERROR, VM_FAULT_OOM, VM_FAULT_SIGBUS,
      VM_FAULT_SIGSEGV, VM_FAULT_HWPOISON, VM_FAULT_HWPOISON_LARGE,
      VM_FAULT_FALLBACK]
  · rfl

/-- Claim C9 (implicit): classification entered through test_type is total and
never raises: on every input `test_type_exc` returns `Except.ok` (equal to the
total function `test_type`), the result is one of the four categories, and
whenever `should_trace` holds both `is_major` and `is_cow` return `Except.ok`,
so their ValueError branches are unreachable from test_type (which checks
`should_trace` first and short-circuits to ignore). -/
theorem c9_total : ∀ (ret flags : Nat) (error : Int),
    (test_type_exc ret flags error = Except.ok (test_type ret flags error)) ∧
    (test_type ret flags error ∈ (["ignore", "cow", "maj", "min"] : List String)) ∧
    (should_trace ret flags = true →
      (∃ b, is_major ret flags = Except.ok b) ∧
      (∃ b, is_cow ret flags = Except.ok b)) := by
  intro ret flags error
  refine ⟨?_, ?_, ?_⟩
  · unfold test_type_exc test_type is_major
    by_cases h1 : should_trace ret flags
    · by_cases h2 : error = 7
      · simp [h1, h2]
      · by_cases h3 : ret &&& VM_FAULT_MAJOR != 0 || flags &&& FAULT_FLAG_TRIED != 0
        · simp [h1, h2, h3]
        · simp [h1, h2, h3]
    · simp [h1]
  · unfold test_type
    by_cases h1 : should_trace ret flags
    · by_cases h2 : error = 7
      · simp [h1, h2]
      · by_cases h3 : ret &&& VM_FAULT_MAJOR != 0 || flags &&& FAULT_FLAG_TRIED != 0
        · simp [h1, h2, h3]
        · simp [h1, h2, h3]
    · simp [h1]
  · intro h
    unfold is_major is_cow
    simp [h]

/-- Witness for C9 at a concrete input (ret=4, flags=32, error=0). -/
theorem c9_witness :
    (test_type_exc 4 32 0 = Except.ok (test_type 4 32 0)) ∧
    (test_type 4 32 0 ∈ (["ignore", "cow", "maj", "min"] : List String)) ∧
    ((∃ b, is_major 4 32 = Except.ok b) ∧ (∃ b, is_cow 4 32 = Except.ok b)) :=
  ⟨(c9_total 4 32 0).1, (c9_total 4 32 0).2.1, (c9_total 4 32 0).2.2 (by decide)⟩

/- ===================== src/common.py : Fault, FaultParser ===================== -/

/-- Fault data class (src/common.py:74-88).  `address` is stored as the
hexadecimal string `hex(int(group, 16))` produces; the integer fields carry
Python's exact integers. -/
structure Fault where
  pid : Int
  cpu : Int
  timestamp : Int
  address : String
  flags : Nat
  ret : Nat
  type : Option String
  error : Int
deriving DecidableEq

/-- Python hex() of a nonnegative integer: 0x prefix and lowercase digits. -/
def py_hex (n : Nat) : String := "0x" ++ String.mk (Nat.toDigits 16 n)

/-- One raw trace line, as classified by the three regular expressions of
FaultParser (src/common.py:110-112): an entry line (address and error code),
a flag line, a return line, or any other line (which matches none of them).
The lexical capture groups are carried as already-converted numbers. -/
inductive RawLine where
  | entry (pid cpu timestamp : Int) (address : Nat) (error : Nat)
  | flagLine (pid cpu timestamp : Int) (address : Nat) (flag : Nat)
  | retLine (pid cpu : Int) (ret : Nat)
  | other
deriving DecidableEq

def RawLine.isEntry : RawLine → Bool
  | .entry _ _ _ _ _ => true
  | _ => false

def RawLine.isFlagLine : RawLine → Bool
  | .flagLine _ _ _ _ _ => true
  | _ => false

def RawLine.isRetLine : RawLine → Bool
  | .retLine _ _ _ => true
  | _ => false

/-- The pid the line reports (the first capture group of the pid pattern);
`other` lines carry none that matters to the parse. -/
def RawLine.linePid : RawLine → Option Int
  | .entry p _ _ _ _ => some p
  | .flagLine p _ _ _ _ => some p
  | .retLine p _ _ => some p
  | .other => none

/-- The Fault built when an entry line matches (src/common.py:166-172),
on top of the `Fault.__init__` defaults (flags 0, ret 0, type None). -/
def mk_fault (p c t : Int) (a e : Nat) : Fault :=
  { pid := p, cpu := c, timestamp := t, address := py_hex a,
    flags := 0, ret := 0, type := none, error := (e : Int) }

/-- `_faults[-1].flags = ...` (src/common.py:178); the accumulator is kept
most-recent-first, so the mutated element is the head. -/
def set_flags (fl : Nat) : List Fault → List Fault
  | [] => []
  | f :: rest => { f with flags := fl } :: rest

/-- `_faults[-1].ret = ...; _faults[-1].test_type()` (src/common.py:182-183). -/
def set_ret (r : Nat) : List Fault → List Fault
  | [] => []
  | f :: rest => { f with ret := r, type := some (test_type r f.flags f.error) } :: rest

/-- One iteration of the line loop of FaultParser.parse
(src/common.py:160-184).  The state is the alignment flag and the fault
list, most recent first. -/
def parse_step : Bool × List Fault → RawLine → Bool × List Fault
  | (_, acc), RawLine.entry p c t a e => (true, mk_fault p c t a e :: acc)
  | (flag, acc), l =>
    if !flag then (flag, acc)
    else
      match l with
      | RawLine.flagLine _ _ _ _ fl => (flag, set_flags fl acc)
      | RawLine.retLine _ _ r => (flag, set_ret r acc)
      | _ => (flag, acc)

/-- FaultParser.parse on the line substream of one process
(src/common.py:159-184). -/
def parse_lines (lines : List RawLine) : List Fault :=
  ((lines.foldl parse_step (false, [])).2).reverse

/-- `FaultParser.__split_by_pid` keeps, for pid p, the lines whose pid
capture group is p, in file order (src/common.py:141-148). -/
def split_by_pid (p : Int) (lines : List RawLine) : List RawLine :=
  lines.filter (fun l => l.linePid = some p)

/-- FaultParser.parse (src/common.py:155-185): the per-pid substreams are
parsed one after the other and the fault lists concatenated. -/
def parse (pids : List Int) (lines : List RawLine) : List Fault :=
  (pids.map (fun p => parse_lines (split_by_pid p lines))).flatten

/-- Fold over lines that are neither entry nor return lines: the head fault
keeps every field except possibly `flags`, and even `flags` when no flag
line occurs. -/
theorem parse_step_mid (mid : List RawLine)
    (hmid : ∀ l ∈ mid, l.isEntry = false ∧ l.isRetLine = false) :
    ∀ (f : Fault) (acc : List Fault),
      ∃ f2, List.foldl parse_step (true, f :: acc) mid = (true, f2 :: acc) ∧
        f2.pid = f.pid ∧ f2.cpu = f.cpu ∧ f2.timestamp = f.timestamp ∧
        f2.address = f.address ∧ f2.ret = f.ret ∧ f2.type = f.type ∧
        f2.error = f.error ∧
        ((∀ l ∈ mid, l.isFlagLine = false) → f2.flags = f.flags) := by
  induction mid with
  | nil =>
    intro f acc
    exact ⟨f, rfl, rfl, rfl, rfl, rfl, rfl, rfl, rfl, fun _ => rfl⟩
  | cons l rest ih =>
    intro f acc
    have hl := hmid l (List.mem_cons_self l rest)
    have hrest : ∀ l2 ∈ rest, l2.isEntry = false ∧ l2.isRetLine = false :=
      fun l2 h2 => hmid l2 (List.mem_cons_of_mem l h2)
    cases l with
    | entry p c t a e => simp [RawLine.isEntry] at hl
    | retLine p c r => simp [RawLine.isRetLine] at hl
    | flagLine p c t a fl =>
      have hstep : parse_step (true, f :: acc) (RawLine.flagLine p c t a fl)
          = (true, { f with flags := fl } :: acc) := rfl
      rw [List.foldl_cons, hstep]
      obtain ⟨f2, heq, h1, h2, h3, h4, h5, h6, h7, _⟩ :=
        ih hrest { f with flags := fl } acc
      refine ⟨f2, heq, h1, h2, h3, h4, h5, h6, h7, ?_⟩
      intro hnof
      have := hnof (RawLine.flagLine p c t a fl) (List.mem_cons_self _ rest)
      simp [RawLine.isFlagLine] at this
    | other =>
      have hstep : parse_step (true, f :: acc) RawLine.other = (true, f :: acc) := rfl
      rw [List.foldl_cons, hstep]
      obtain ⟨f2, heq, h1, h2, h3, h4, h5, h6, h7, h8⟩ := ih hrest f acc
      exact ⟨f2, heq, h1, h2, h3, h4, h5, h6, h7,
        fun hnof => h8 (fun l2 hl2 => hnof l2 (List.mem_cons_of_mem _ hl2))⟩

/-- Lines before the first entry line leave the parser state unchanged
(the `if not flag: continue` branch, src/common.py:174-175). -/
theorem parse_step_unaligned (rs : List RawLine)
    (hrs : ∀ l ∈ rs, l.isEntry = false) (acc : List Fault) :
    List.foldl parse_step (false, acc) rs = (false, acc) := by
  induction rs with
  | nil => rfl
  | cons l rest ih =>
    have hl := hrs l (List.mem_cons_self l rest)
    have hrest : ∀ l2 ∈ rest, l2.isEntry = false :=
      fun l2 h2 => hrs l2 (List.mem_cons_of_mem l h2)
    cases l with
    | entry p c t a e => simp [RawLine.isEntry] at hl
    | retLine p c r => rw [List.foldl_cons]; exact ih hrest
    | flagLine p c t a fl => rw [List.foldl_cons]; exact ih hrest
    | other => rw [List.foldl_cons]; exact ih hrest

def c4_lines : List RawLine :=
  [RawLine.entry 100 1 1000010 0x7f 0x7, RawLine.retLine 100 3 4]

/-- Counterexample to claim C4: the return line for (pid=100, cpu=3) matches
no unpaired entry for that (pid, cpu) pair — the only entry is on cpu 1 —
yet the parser does not discard it: the produced FaultEvent has absorbed its
return value 4.  The parser matches by pid only (via the per-pid substream
split) and attaches every return line to the most recent entry, whatever its
cpu; no anomaly is reported anywhere. -/
theorem c4_counterexample :
    (parse [100] c4_lines).length = 1 ∧
    (parse [100] c4_lines).head?.map (fun f => (f.pid, f.cpu, f.ret, f.type))
      = some (100, 1, 4, some "cow") := by
  constructor
  · rfl
  · rfl

/-- Claim C4 as amended: FaultParser groups lines by processId alone (the
per-pid substream split); within a substream a return line is paired with
the most recently created Fault regardless of cpuId; a return line arriving
before the first entry line of the substream is skipped silently — no
FaultEvent is produced from it, no anomaly is reported, and the parse
continues unaffected. -/
theorem c4_amended :
    (∀ (rs ls : List RawLine), (∀ l ∈ rs, l.isEntry = false) →
      parse_lines (rs ++ ls) = parse_lines ls) ∧
    (∀ (pre mid : List RawLine) (p c t : Int) (a e : Nat) (p2 c2 : Int) (r : Nat),
      (∀ l ∈ mid, l.isEntry = false ∧ l.isRetLine = false) →
      ∃ f, (parse_lines
              (pre ++ RawLine.entry p c t a e :: (mid ++ [RawLine.retLine p2 c2 r]))
            ).getLast? = some f ∧
        f.ret = r ∧ f.pid = p ∧ f.cpu = c ∧ f.timestamp = t ∧
        f.error = (e : Int) ∧ f.type = some (test_type r f.flags (e : Int))) := by
  constructor
  · intro rs ls hrs
    unfold parse_lines
    rw [List.foldl_append, parse_step_unaligned rs hrs]
  · intro pre mid p c t a e p2 c2 r hmid
    unfold parse_lines
    rw [List.foldl_append]
    rcases hpre : List.foldl parse_step (false, []) pre with ⟨fl0, acc0⟩
    rw [List.foldl_cons]
    have hentry : parse_step (fl0, acc0) (RawLine.entry p c t a e)
        = (true, mk_fault p c t a e :: acc0) := rfl
    rw [hentry, List.foldl_append]
    obtain ⟨f2, heq, h1, h2, h3, h4, h5, h6, h7, _⟩ :=
      parse_step_mid mid hmid (mk_fault p c t a e) acc0
    rw [heq]
    have hret : List.foldl parse_step (true, f2 :: acc0) [RawLine.retLine p2 c2 r]
        = (true, { f2 with ret := r, type := some (test_type r f2.flags f2.error) } :: acc0) := rfl
    rw [hret]
    refine ⟨{ f2 with ret := r, type := some (test_type r f2.flags f2.error) },
      ?_, rfl, ?_, ?_, ?_, ?_, ?_⟩
    · simp
    · exact h1
    · exact h2
    · exact h3
    · exact h7
    · show some (test_type r f2.flags f2.error) = _
      rw [h7]
      rfl

/-- Witness for the amended C4: a return line before any entry is dropped,
and a return line with a mismatched cpu is absorbed by the latest entry. -/
theorem c4_amended_witness :
    (parse_lines ([RawLine.retLine 100 3 4] ++ [RawLine.entry 100 1 10 0 6])
      = parse_lines [RawLine.entry 100 1 10 0 6]) ∧
    (∃ f, (parse_lines
            ([] ++ RawLine.entry 100 1 10 0 6 :: ([RawLine.other] ++ [RawLine.retLine 100 3 4]))
          ).getLast? = some f ∧
      f.ret = 4 ∧ f.pid = 100 ∧ f.cpu = 1 ∧ f.timestamp = 10 ∧
      f.error = ((6 : Nat) : Int) ∧ f.type = some (test_type 4 f.flags ((6 : Nat) : Int))) :=
  ⟨c4_amended.1 [RawLine.retLine 100 3 4] [RawLine.entry 100 1 10 0 6]
      (by intro l hl; rw [List.mem_singleton] at hl; subst hl; rfl),
   c4_amended.2 [] [RawLine.other] 100 1 10 0 6 100 3 4
      (by intro l hl; rw [List.mem_singleton] at hl; subst hl; exact ⟨rfl, rfl⟩)⟩

/-- Once the accumulator has at least one fault above a tail, no later line
ever touches the tail: entry lines push a new fault, flag and return lines
mutate only the head (`_faults[-1]`), other lines do nothing. -/
theorem parse_step_keeps_tail (ls : List RawLine) :
    ∀ (flag : Bool) (acc1 tl : List Fault), acc1 ≠ [] →
      ∃ (flag2 : Bool) (acc2 : List Fault), acc2 ≠ [] ∧
        List.foldl parse_step (flag, acc1 ++ tl) ls = (flag2, acc2 ++ tl) := by
  induction ls with
  | nil => intro flag acc1 tl h; exact ⟨flag, acc1, h, rfl⟩
  | cons l rest ih =>
    intro flag acc1 tl h
    rw [List.foldl_cons]
    obtain ⟨hd, acc1t, rfl⟩ : ∃ hd acc1t, acc1 = hd :: acc1t := by
      cases acc1 with
      | nil => exact absurd rfl h
      | cons hd acc1t => exact ⟨hd, acc1t, rfl⟩
    cases l with
    | entry p c t a e =>
      have hstep : parse_step (flag, (hd :: acc1t) ++ tl) (RawLine.entry p c t a e)
          = (true, (mk_fault p c t a e :: hd :: acc1t) ++ tl) := rfl
      rw [hstep]
      exact ih true (mk_fault p c t a e :: hd :: acc1t) tl (by simp)
    | flagLine p c t a fl =>
      cases flag with
      | false =>
        have hstep : parse_step (false, (hd :: acc1t) ++ tl) (RawLine.flagLine p c t a fl)
            = (false, (hd :: acc1t) ++ tl) := rfl
        rw [hstep]
        exact ih false (hd :: acc1t) tl (by simp)
      | true =>
        have hstep : parse_step (true, (hd :: acc1t) ++ tl) (RawLine.flagLine p c t a fl)
            = (true, ({ hd with flags := fl } :: acc1t) ++ tl) := rfl
        rw [hstep]
        exact ih true ({ hd with flags := fl } :: acc1t) tl (by simp)
    | retLine p c r =>
      cases flag with
      | false =>
        have hstep : parse_step (false, (hd :: acc1t) ++ tl) (RawLine.retLine p c r)
            = (false, (hd :: acc1t) ++ tl) := rfl
        rw [hstep]
        exact ih false (hd :: acc1t) tl (by simp)
      | true =>
        have hstep : parse_step (true, (hd :: acc1t) ++ tl) (RawLine.retLine p c r)
            = (true, ({ hd with ret := r, type := some (test_type r hd.flags hd.error) } :: acc1t) ++ tl) := rfl
        rw [hstep]
        exact ih true ({ hd with ret := r, type := some (test_type r hd.flags hd.error) } :: acc1t) tl (by simp)
    | other =>
      cases flag with
      | false =>
        have hstep : parse_step (false, (hd :: acc1t) ++ tl) RawLine.other
            = (false, (hd :: acc1t) ++ tl) := rfl
        rw [hstep]
        exact ih false (hd :: acc1t) tl (by simp)
      | true =>
        have hstep : parse_step (true, (hd :: acc1t) ++ tl) RawLine.other
            = (true, (hd :: acc1t) ++ tl) := rfl
        rw [hstep]
        exact ih true (hd :: acc1t) tl (by simp)

/-- The element sitting between the reversed earlier faults and anything
produced later is found exactly at its own position. -/
theorem getElem_reverse_middle (acc0 : List Fault) (f2 : Fault) (x : List Fault) :
    (acc0.reverse ++ f2 :: x)[acc0.length]? = some f2 := by
  rw [List.getElem?_append_right (by simp)]
  simp

/-- Claim C10 (implicit): every entry line that is never followed by a
return line before the end of its process substream — the lines `mid` up to
the next entry line (or the end) contain no return — still yields a Fault
in the returned list, at the position of its entry, with type still None
(classification never ran), ret still 0, and flags still 0 when no flag
line arrived in that window.  The continuation `rest` is either empty (the
entry is the substream's last) or begins with the next entry line followed
by anything at all, so the unpaired, unclassified event persists in the
middle of the list, mixed with whatever classified events the prefix and
the continuation produce. -/
theorem c10_unpaired_entry (pre mid rest : List RawLine) (p c t : Int) (a e : Nat)
    (hmid : ∀ l ∈ mid, l.isEntry = false ∧ l.isRetLine = false)
    (hrest : rest = [] ∨
      ∃ p2 c2 t2 ad2 e2 rest2, rest = RawLine.entry p2 c2 t2 ad2 e2 :: rest2) :
    ∃ f, (parse_lines (pre ++ RawLine.entry p c t a e :: (mid ++ rest)))[
        ((List.foldl parse_step (false, []) pre).2).length]? = some f ∧
      f.type = none ∧ f.ret = 0 ∧ f.pid = p ∧ f.cpu = c ∧ f.timestamp = t ∧
      f.error = (e : Int) ∧
      ((∀ l ∈ mid, l.isFlagLine = false) → f.flags = 0) := by
  unfold parse_lines
  rw [List.foldl_append]
  rcases hpre : List.foldl parse_step (false, []) pre with ⟨fl0, acc0⟩
  rw [List.foldl_cons]
  have hentry : parse_step (fl0, acc0) (RawLine.entry p c t a e)
      = (true, mk_fault p c t a e :: acc0) := rfl
  rw [hentry, List.foldl_append]
  obtain ⟨f2, heq, h1, h2, h3, h4, h5, h6, h7, h8⟩ :=
    parse_step_mid mid hmid (mk_fault p c t a e) acc0
  rw [heq]
  rcases hrest with hnil | ⟨p2, c2, t2, ad2, e2, rest2, hr⟩
  · subst hnil
    rw [List.foldl_nil]
    refine ⟨f2, ?_, h6, h5, h1, h2, h3, h7, h8⟩
    show ((f2 :: acc0).reverse)[acc0.length]? = some f2
    rw [List.reverse_cons]
    exact getElem_reverse_middle acc0 f2 []
  · subst hr
    rw [List.foldl_cons]
    have hpush : parse_step (true, f2 :: acc0) (RawLine.entry p2 c2 t2 ad2 e2)
        = (true, [mk_fault p2 c2 t2 ad2 e2] ++ (f2 :: acc0)) := rfl
    rw [hpush]
    obtain ⟨flag2, accN, hne, heqN⟩ :=
      parse_step_keeps_tail rest2 true [mk_fault p2 c2 t2 ad2 e2] (f2 :: acc0) (by simp)
    rw [heqN]
    refine ⟨f2, ?_, h6, h5, h1, h2, h3, h7, h8⟩
    show ((accN ++ f2 :: acc0).reverse)[acc0.length]? = some f2
    rw [List.reverse_append, List.reverse_cons, List.append_assoc]
    exact getElem_reverse_middle acc0 f2 accN.reverse

/-- Witness for C10: an unpaired entry followed by an unrelated line and
then a second entry that does get paired; the first fault persists
unclassified, at index 0, ahead of the classified one. -/
theorem c10_witness :
    ∃ f, (parse_lines ([] ++ RawLine.entry 100 2 5 0 6 ::
        ([RawLine.other] ++ [RawLine.entry 100 3 9 1 7, RawLine.retLine 100 3 0])))[(0 : Nat)]?
        = some f ∧
      f.type = none ∧ f.ret = 0 ∧ f.pid = 100 ∧ f.cpu = 2 ∧ f.timestamp = 5 ∧
      f.error = ((6 : Nat) : Int) ∧
      ((∀ l ∈ [RawLine.other], l.isFlagLine = false) → f.flags = 0) :=
  c10_unpaired_entry [] [RawLine.other]
    [RawLine.entry 100 3 9 1 7, RawLine.retLine 100 3 0] 100 2 5 0 6
    (by intro l hl; rw [List.mem_singleton] at hl; subst hl; exact ⟨rfl, rfl⟩)
    (Or.inr ⟨100, 3, 9, 1, 7, [RawLine.retLine 100 3 0], rfl⟩)

/- ===================== src/common.py : Frame, Proc, TraceOutput ===================== -/

/-- Frame data class (src/common.py:188-194). -/
structure Frame where
  pid : Int
  fid : Int
  lineno : Int
  timestamp : Int
  filename : String
deriving DecidableEq

/-- Proc data class (src/common.py:219-223). -/
structure Proc where
  pid : Int
  ppid : Int
  timestamp : Int
deriving DecidableEq

/-- The procs dictionary built by TraceOutput.__init__
(src/common.py:253). -/
structure ProcsDict where
  root : Int
  rels : List Proc
deriving DecidableEq

/-- TraceOutput (src/common.py:251-255): the persisted trace document. -/
structure TraceOutput where
  procs : ProcsDict
  faults : List Fault
  frames : List Frame
deriving DecidableEq

/- ===================== src/report.py ===================== -/

/-- Python dict lookup on an insertion-ordered association list. -/
def dict_get [DecidableEq k] (key : k) : List (k × a) → Option a
  | [] => none
  | (k2, v) :: rest => if key = k2 then some v else dict_get key rest

/-- Python dict assignment: replace in place if the key exists, otherwise
append, preserving insertion order. -/
def dict_set [DecidableEq k] (key : k) (v : a) : List (k × a) → List (k × a)
  | [] => [(key, v)]
  | (k2, v2) :: rest =>
    if key = k2 then (key, v) :: rest else (k2, v2) :: dict_set key v rest

/-- group_faults_by_pid (src/report.py:10-20). -/
def group_faults_by_pid (faults : List Fault) : List (Int × List Fault) :=
  faults.foldl (fun groups f =>
    match dict_get f.pid groups with
    | none => dict_set f.pid [f] groups
    | some l => dict_set f.pid (l ++ [f]) groups) []

/-- group_frames_by_pid (src/report.py:23-33). -/
def group_frames_by_pid (frames : List Frame) : List (Int × List Frame) :=
  frames.foldl (fun groups fr =>
    match dict_get fr.pid groups with
    | none => dict_set fr.pid [fr] groups
    | some l => dict_set fr.pid (l ++ [fr]) groups) []

/-- get_data_before (src/report.py:36-41): keeps, in order, the elements
whose timestamp is at most the cutoff (the comparison is `<=`). -/
def get_data_before (group : List Fault) (timestamp : Int) : List Fault :=
  group.foldl (fun data e => if e.timestamp ≤ timestamp then data ++ [e] else data) []

/-- get_cpus (src/report.py:44-51): the Python set of cpus, modelled as the
membership-deduplicated list the loop builds. -/
def get_cpus (faults : List Fault) : List Int :=
  faults.foldl (fun cpus f => if f.cpu ∈ cpus then cpus else cpus ++ [f.cpu]) []

/-- count_faults_by_types (src/report.py:54-67): (cow, min, maj) counts;
any other type value, ignore and None included, is counted nowhere. -/
def count_faults_by_types (faults : List Fault) : Nat × Nat × Nat :=
  faults.foldl (fun c f =>
    if f.type = some "cow" then (c.1 + 1, c.2.1, c.2.2)
    else if f.type = some "min" then (c.1, c.2.1 + 1, c.2.2)
    else if f.type = some "maj" then (c.1, c.2.1, c.2.2 + 1)
    else c) (0, 0, 0)

/-- One memo entry of handle_report (src/report.py:93-99 and 112-125). -/
structure Bucket where
  pid : Int
  cpus : List Int
  lineno : Int
  filename : String
  cow : Nat
  min : Nat
  maj : Nat
deriving DecidableEq

/-- The bucket the source fills field by field from a fault slice
(src/report.py:93-99, 112-119, 128-134). -/
def mk_bucket (pid : Int) (faults : List Fault) (lineno : Int) (filename : String) : Bucket :=
  let c := count_faults_by_types faults
  { pid := pid, cpus := get_cpus faults, lineno := lineno, filename := filename,
    cow := c.1, min := c.2.1, maj := c.2.2 }

/-- The dict key of a frame bucket (src/report.py:106). -/
def frame_key (fr : Frame) : String := toString fr.lineno ++ "-" ++ fr.filename

/-- The loop state of handle_report over one process (src/report.py:103-125). -/
structure LoopSt where
  faults : List Fault
  skipLen : Nat
  currFid : Int
  memo : List (String × Bucket)

/-- One iteration of the frame loop (src/report.py:105-125).  `faults0` is
the full fault list of the process, `faults_dict[pid]`.  In the else branch
the source calls `memo[key]['cpus'].union(...)` and discards the result —
Python set.union does not mutate — so cpus stays what it was; `cow` is
accumulated with `+=` but `min` and `maj` are plain assignments. -/
def report_step (pid : Int) (faults0 : List Fault) (st : LoopSt) (fr : Frame) : LoopSt :=
  let p := if fr.fid ≠ st.currFid then (fr.fid, faults0.drop st.skipLen)
           else (st.currFid, st.faults)
  let lineFaults := get_data_before p.2 fr.timestamp
  let memo :=
    match dict_get (frame_key fr) st.memo with
    | none =>
      dict_set (frame_key fr) (mk_bucket pid lineFaults fr.lineno fr.filename) st.memo
    | some b =>
      let c := count_faults_by_types lineFaults
      dict_set (frame_key fr)
        { b with cow := b.cow + c.1, min := c.2.1, maj := c.2.2 } st.memo
  { faults := p.2, skipLen := lineFaults.length, currFid := p.1, memo := memo }

/-- Python sorted() is an ascending stable sort; modelled as stable
insertion sort. -/
def ins_sorted (le : a → a → Bool) (x : a) : List a → List a
  | [] => [x]
  | y :: ys => if le x y then x :: y :: ys else y :: ins_sorted le x ys

def stable_sort (le : a → a → Bool) : List a → List a
  | [] => []
  | x :: xs => ins_sorted le x (stable_sort le xs)

/-- `sorted(memo.items(), key=lambda x: x[1]['cow'])` (src/report.py:136). -/
def sort_by_cow (memo : List (String × Bucket)) : List (String × Bucket) :=
  stable_sort (fun x y => x.2.cow ≤ y.2.cow) memo

/-- The body of handle_report for one process (src/report.py:86-137).
`faults_dict[pid]` and `frames_dict[pid]` are Python dict subscripts: a
missing key raises KeyError, modelled as `Except.error`. -/
def process_proc (faultsDict : List (Int × List Fault))
    (framesDict : List (Int × List Frame)) (proc : Proc) :
    Except String (List (String × Bucket)) :=
  match dict_get proc.pid faultsDict with
  | none => Except.error "KeyError: pid not in faults dict"
  | some faults0 =>
    let startupFaults := get_data_before faults0 proc.timestamp
    let memo0 := dict_set "startup" (mk_bucket proc.pid startupFaults (-1) "") []
    let faults1 := faults0.drop startupFaults.length
    match dict_get proc.pid framesDict with
    | none => Except.error "KeyError: pid not in frames dict"
    | some frames =>
      let st := frames.foldl (report_step proc.pid faults0)
        { faults := faults1, skipLen := 0, currFid := -1, memo := memo0 }
      let faults2 := st.faults.drop st.skipLen
      let memo := dict_set "teardown" (mk_bucket proc.pid faults2 (-1) "") st.memo
      Except.ok (sort_by_cow memo)

/-- The per-process loop of handle_report (src/report.py:86-137): an
exception in any iteration aborts the whole pass. -/
def run_report (faultsDict : List (Int × List Fault))
    (framesDict : List (Int × List Frame)) :
    List Proc → Except String (List (Int × List (String × Bucket)))
  | [] => Except.ok []
  | proc :: rest =>
    match process_proc faultsDict framesDict proc with
    | Except.error e => Except.error e
    | Except.ok memo =>
      match run_report faultsDict framesDict rest with
      | Except.error e => Except.error e
      | Except.ok out => Except.ok ((proc.pid, memo) :: out)

/-- handle_report (src/report.py:81-137), with the per-pid sorted memos
returned instead of written to the per-pid csv files. -/
def handle_report (trace : TraceOutput) : Except String (List (Int × List (String × Bucket))) :=
  let framesDict := group_frames_by_pid trace.frames
  let faultsDict := group_faults_by_pid trace.faults
  run_report faultsDict framesDict trace.procs.rels

/-- Total of the three counts over all buckets of a memo. -/
def memo_total (memo : List (String × Bucket)) : Nat :=
  (memo.map (fun kb => kb.2.cow + kb.2.min + kb.2.maj)).sum

/-- Total over every process of the report. -/
def report_total (out : List (Int × List (String × Bucket))) : Nat :=
  (out.map (fun pm => memo_total pm.2)).sum

/-- Number of faults whose category is one of cow, min, maj: the
non-ignored classified faults. -/
def non_ignored (faults : List Fault) : Nat :=
  (faults.filter (fun f =>
    f.type = some "cow" ∨ f.type = some "min" ∨ f.type = some "maj")).length

def c2_trace : TraceOutput :=
  { procs := { root := 0, rels := [{ pid := 1, ppid := 0, timestamp := 10 }] },
    faults := [{ pid := 1, cpu := 0, timestamp := 5, address := "0x0",
                 flags := 0, ret := 0, type := some "min", error := 6 }],
    frames := [{ pid := 1, fid := 0, lineno := 7, timestamp := 20, filename := "a.py" }] }

/-- Claim C2 fails on the code: for the process of `c2_trace` (created at
t=10, one non-ignored fault at t=5, one location sample at t=20) the bucket
counts total 2 although the process has a single non-ignored fault — the
startup fault is counted again in the first location bucket, because the
frame loop resets the fault list to the full `faults_dict[pid]` with
`skip_len` still 0, discarding the startup-slice removal of
src/report.py:100.  The buckets are not a partition. -/
theorem c2_code_bug :
    (handle_report c2_trace).toOption.map report_total = some 2 ∧
    non_ignored c2_trace.faults = 1 := by
  constructor
  · rfl
  · rfl

def c3_trace : TraceOutput :=
  { procs := { root := 0, rels := [{ pid := 1, ppid := 0, timestamp := 0 }] },
    faults := [{ pid := 1, cpu := 0, timestamp := 5, address := "0x0",
                 flags := 0, ret := 0, type := some "min", error := 6 },
               { pid := 1, cpu := 1, timestamp := 15, address := "0x0",
                 flags := 0, ret := 0, type := some "min", error := 6 },
               { pid := 1, cpu := 1, timestamp := 16, address := "0x0",
                 flags := 0, ret := 0, type := some "min", error := 6 }],
    frames := [{ pid := 1, fid := 0, lineno := 7, timestamp := 10, filename := "a.py" },
               { pid := 1, fid := 1, lineno := 7, timestamp := 20, filename := "a.py" }] }

/-- The bucket of source location `7-a.py` of process 1 after handle_report
on `c3_trace`. -/
def c3_bucket : Option Bucket :=
  (handle_report c3_trace).toOption.bind (fun out =>
    (dict_get 1 out).bind (fun memo => dict_get "7-a.py" memo))

/-- Claim C3 fails on the code: the key `7-a.py` occurs in two sampling
ticks of process 1; the first accumulation holds one min fault on cpu 0,
the second two min faults on cpu 1.  After processing, the bucket's cpu set
is still [0] — not the union, since the result of set.union is discarded —
and min is 2, the value of the last accumulation, not the sum 3 (`min` and
`maj` are assigned with `=` where `cow` uses `+=`). -/
theorem c3_code_bug :
    ∃ b, c3_bucket = some b ∧
      b.cpus = [0] ∧ ¬((1 : Int) ∈ b.cpus) ∧
      b.min = 2 ∧ ¬(b.min = 3) ∧ b.cow = 0 ∧ b.maj = 0 := by
  refine ⟨{ pid := 1, cpus := [0], lineno := 7, filename := "a.py",
            cow := 0, min := 2, maj := 0 }, ?_, rfl, by decide, rfl, by decide, rfl, rfl⟩
  rfl

/-- The selection loop of get_data_before is a filter on timestamp ≤ cutoff. -/
theorem get_data_before_eq_filter (group : List Fault) (timestamp : Int) :
    get_data_before group timestamp
      = group.filter (fun e => e.timestamp ≤ timestamp) := by
  unfold get_data_before
  suffices h : ∀ acc, group.foldl
      (fun data e => if e.timestamp ≤ timestamp then data ++ [e] else data) acc
      = acc ++ group.filter (fun e => e.timestamp ≤ timestamp) by
    simpa using h []
  induction group with
  | nil => intro acc; simp
  | cons e rest ih =>
    intro acc
    rw [List.foldl_cons]
    by_cases he : e.timestamp ≤ timestamp
    · rw [if_pos he, ih (acc ++ [e])]
      simp [List.filter_cons, he]
    · rw [if_neg he, ih acc]
      simp [List.filter_cons, he]

/-- Claim C5: bucket boundaries are closed at the upper end.  The membership
test of get_data_before — the function handle_report uses both for the
startup cutoff (`get_data_before(faults, fork_time)`, src/report.py:92) and
for every sampling tick (`get_data_before(faults, frame['timestamp'])`,
src/report.py:110) — is `timestamp ≤ boundary`, never a strict `<`: an
element belongs to the selection iff its timestamp is at most the cutoff,
and in particular an element whose timestamp equals the cutoff (a fault on
a tick boundary, or on the process creation timestamp) is selected into
that bucket's slice. -/
theorem c5_closed_upper_bound :
    (∀ (g : List Fault) (t : Int) (f : Fault),
      f ∈ get_data_before g t ↔ (f ∈ g ∧ f.timestamp ≤ t)) ∧
    (∀ (g : List Fault) (t : Int) (f : Fault),
      f ∈ g → f.timestamp = t → f ∈ get_data_before g t) := by
  have hmem : ∀ (g : List Fault) (t : Int) (f : Fault),
      f ∈ get_data_before g t ↔ (f ∈ g ∧ f.timestamp ≤ t) := by
    intro g t f
    rw [get_data_before_eq_filter, List.mem_filter]
    simp
  exact ⟨hmem, fun g t f hf ht => (hmem g t f).mpr ⟨hf, le_of_eq ht⟩⟩

def c5_fault : Fault :=
  { pid := 1, cpu := 0, timestamp := 10, address := "0x0",
    flags := 0, ret := 0, type := some "min", error := 6 }

/-- Witness for C5: a fault exactly on the cutoff is selected. -/
theorem c5_witness : c5_fault ∈ get_data_before [c5_fault] 10 :=
  c5_closed_upper_bound.2 [c5_fault] 10 c5_fault (List.mem_singleton_self c5_fault) rfl

def c8_trace : TraceOutput :=
  { procs := { root := 0, rels := [{ pid := 5, ppid := 0, timestamp := 10 }] },
    faults := [{ pid := 5, cpu := 0, timestamp := 5, address := "0x0",
                 flags := 0, ret := 0, type := some "min", error := 6 }],
    frames := [] }

/-- Counterexample to claim C8: process 5 appears in the process relations
and has faults but no recorded location samples; handle_report does not
yield startup and teardown buckets for it — the subscript
`frames_dict[pid]` (src/report.py:102) raises KeyError and the whole pass
aborts. -/
theorem c8_counterexample :
    handle_report c8_trace = Except.error "KeyError: pid not in frames dict" := by
  rfl

/-- A process absent from the frames dict makes process_proc raise. -/
theorem process_proc_no_frames (faultsDict : List (Int × List Fault))
    (framesDict : List (Int × List Frame)) (proc : Proc)
    (hnone : dict_get proc.pid framesDict = none) :
    ∃ e, process_proc faultsDict framesDict proc = Except.error e := by
  unfold process_proc
  cases hf : dict_get proc.pid faultsDict with
  | none => exact ⟨_, rfl⟩
  | some faults0 => rw [hnone]; exact ⟨_, rfl⟩

/-- A process without frames anywhere in the list aborts run_report. -/
theorem run_report_missing (faultsDict : List (Int × List Fault))
    (framesDict : List (Int × List Frame)) (procs : List Proc)
    (h : ∃ proc ∈ procs, dict_get proc.pid framesDict = none) :
    ∃ e, run_report faultsDict framesDict procs = Except.error e := by
  induction procs with
  | nil =>
    obtain ⟨proc, hmem, _⟩ := h
    exact absurd hmem (List.not_mem_nil proc)
  | cons q rest ih =>
    obtain ⟨proc, hmem, hnone⟩ := h
    unfold run_report
    cases hq : process_proc faultsDict framesDict q with
    | error e => exact ⟨e, rfl⟩
    | ok memo =>
      rcases List.mem_cons.mp hmem with hq2 | hrest
      · subst hq2
        obtain ⟨e, he⟩ := process_proc_no_frames faultsDict framesDict proc hnone
        rw [he] at hq
        exact absurd hq (by simp)
      · obtain ⟨e, he⟩ := ih ⟨proc, hrest, hnone⟩
        rw [he]
        exact ⟨e, rfl⟩

/-- Claim C8 as amended: a process that appears in the trace's process
relations but has no recorded location samples makes aggregation fail:
handle_report raises a KeyError (at the lookup of the process's frames, or
already at the lookup of its faults when it has none), instead of yielding
startup and teardown buckets for it. -/
theorem c8_amended (trace : TraceOutput)
    (hmissing : ∃ proc ∈ trace.procs.rels,
      dict_get proc.pid (group_frames_by_pid trace.frames) = none) :
    ∃ e, handle_report trace = Except.error e := by
  unfold handle_report
  exact run_report_missing _ _ _ hmissing

/-- Witness for the amended C8 at the concrete trace. -/
theorem c8_amended_witness : ∃ e, handle_report c8_trace = Except.error e :=
  c8_amended c8_trace ⟨{ pid := 5, ppid := 0, timestamp := 10 },
    List.mem_singleton_self _, rfl⟩

/- ===================== src/record.py : start_sentinel handlers ===================== -/

/-- The ftrace control files the two signal handlers write
(src/record.py:105-123). -/
structure FtraceState where
  tracingOn : String
  setEventPid : String
deriving DecidableEq

/-- The sentinel's handler state: the two nonlocal guards `_enabled` and
`_disabled` plus the ftrace controls. -/
structure SentinelState where
  enabled : Bool
  disabled : Bool
  ftrace : FtraceState
deriving DecidableEq

/-- Python str.isnumeric restricted to the decimal pids the file holds. -/
def is_numeric (s : String) : Bool :=
  s.data.length != 0 && s.data.all Char.isDigit

/-- read_ppid (src/record.py:79-92): the first line of the pid file, or an
exception when the file is missing or the line is not numeric. -/
def read_ppid (pidFileLine : Option String) : Except String String :=
  match pidFileLine with
  | none => Except.error "FileNotFoundError: pid file does not exist"
  | some pid =>
    if is_numeric pid then Except.ok pid
    else Except.error "ValueError: ppid is not numeric, invalid pid file"

/-- enable_ftrace (src/record.py:105-114).  The handler returns the new
state together with the outcome: `Except.ok msgs` when it returns normally
having printed `msgs`, `Except.error` when read_ppid raises (note the
source sets `_enabled = True` before calling read_ppid, so the guard is
set even on that path). -/
def enable_ftrace (pidFileLine : Option String) (s : SentinelState) :
    SentinelState × Except String (List String) :=
  if s.enabled then
    (s, Except.ok ["Warning: double enabling ftrace is not allowed, signal ignored"])
  else
    let s1 := { s with enabled := true }
    match read_ppid pidFileLine with
    | Except.error e => (s1, Except.error e)
    | Except.ok ppid =>
      ({ s1 with ftrace := { setEventPid := ppid, tracingOn := "1" } },
       Except.ok ["ftrace has started to monitor the parent process: " ++ ppid])

/-- disable_ftrace (src/record.py:116-123); it cannot raise. -/
def disable_ftrace (s : SentinelState) : SentinelState × List String :=
  if s.disabled then
    (s, ["Warning: double disabling ftrace is not allowed, signal ignored"])
  else
    ({ s with disabled := true, ftrace := { s.ftrace with tracingOn := "0" } },
     ["ftrace has stopped"])

/-- Claim C6: the capture lifecycle handlers are idempotent.  Once a start
trigger has taken effect (enable_ftrace returned normally, leaving state
s2), a second start trigger performs no state change — it returns exactly
s2 — and reports a warning instead of raising; likewise a second stop
trigger after any stop trigger returns the unchanged state with a warning. -/
theorem c6_idempotent :
    (∀ (pf pf2 : Option String) (s s2 : SentinelState) (msgs : List String),
      enable_ftrace pf s = (s2, Except.ok msgs) →
      enable_ftrace pf2 s2 =
        (s2, Except.ok ["Warning: double enabling ftrace is not allowed, signal ignored"])) ∧
    (∀ (s : SentinelState),
      disable_ftrace (disable_ftrace s).1 =
        ((disable_ftrace s).1,
         ["Warning: double disabling ftrace is not allowed, signal ignored"])) := by
  constructor
  · intro pf pf2 s s2 msgs h
    have hen : s2.enabled = true := by
      unfold enable_ftrace at h
      by_cases hs : s.enabled
      · rw [if_pos hs] at h
        cases h
        exact hs
      · rw [if_neg hs] at h
        cases hr : read_ppid pf with
        | error e => rw [hr] at h; cases h
        | ok ppid => rw [hr] at h; cases h; rfl
    unfold enable_ftrace
    rw [if_pos hen]
  · intro s
    unfold disable_ftrace
    by_cases hs : s.disabled
    · rw [if_pos hs]
      simp [hs]
    · rw [if_neg hs]
      simp

def c6_start_state : SentinelState :=
  { enabled := false, disabled := false,
    ftrace := { tracingOn := "0", setEventPid := "" } }

def c6_enabled_state : SentinelState :=
  { enabled := true, disabled := false,
    ftrace := { tracingOn := "1", setEventPid := "123" } }

/-- Witness for C6: after a successful start from the initial state with pid
file content 123, a duplicate start is a reported no-op. -/
theorem c6_witness :
    enable_ftrace (some "123") c6_enabled_state =
      (c6_enabled_state,
       Except.ok ["Warning: double enabling ftrace is not allowed, signal ignored"]) :=
  c6_idempotent.1 (some "123") (some "123") c6_start_state c6_enabled_state
    ["ftrace has started to monitor the parent process: 123"] (by rfl)

/- ===================== TraceOutput.save / load_trace (C7) ===================== -/

/-- The JSON documents json.dump can write for this data: null, strings,
exact integers, arrays, and insertion-ordered objects. -/
inductive Json where
  | null
  | str (s : String)
  | int (n : Int)
  | arr (elems : List Json)
  | obj (fields : List (String × Json))

/-- json.dump of an optional string: None becomes null. -/
def opt_str_to_json : Option String → Json
  | none => Json.null
  | some s => Json.str s

/-- The object json.dump writes for a Fault through
`default=lambda o: o.__dict__` (src/common.py:259), fields in
`__init__` insertion order (src/common.py:79-88). -/
def fault_to_json (f : Fault) : Json :=
  Json.obj [("pid", Json.int f.pid), ("cpu", Json.int f.cpu),
    ("timestamp", Json.int f.timestamp), ("address", Json.str f.address),
    ("flags", Json.int (f.flags : Int)), ("ret", Json.int (f.ret : Int)),
    ("type", opt_str_to_json f.type), ("error", Json.int f.error)]

/-- The object written for a Frame (src/common.py:189-194). -/
def frame_to_json (fr : Frame) : Json :=
  Json.obj [("pid", Json.int fr.pid), ("fid", Json.int fr.fid),
    ("lineno", Json.int fr.lineno), ("timestamp", Json.int fr.timestamp),
    ("filename", Json.str fr.filename)]

/-- The object written for a Proc (src/common.py:220-223). -/
def proc_to_json (p : Proc) : Json :=
  Json.obj [("pid", Json.int p.pid), ("ppid", Json.int p.ppid),
    ("timestamp", Json.int p.timestamp)]

/-- TraceOutput.save (src/common.py:257-259): the JSON document written to
the file.  The text layer — json.dump rendering this document and
json.load parsing it back — is the Python standard library and is the
identity on documents of this shape (integers and strings are written and
reparsed exactly); it is modelled at the document level. -/
def trace_output_save (t : TraceOutput) : Json :=
  Json.obj [("procs", Json.obj [("root", Json.int t.procs.root),
              ("rels", Json.arr (t.procs.rels.map proc_to_json))]),
            ("faults", Json.arr (t.faults.map fault_to_json)),
            ("frames", Json.arr (t.frames.map frame_to_json))]

/-- load_trace (src/report.py:5-7): json.load returns the document the file
holds, the very document save wrote. -/
def load_trace (doc : Json) : Json := doc

/-- Key access on a loaded JSON object, as `trace[key]` does. -/
def json_lookup (key : String) : List (String × Json) → Option Json
  | [] => none
  | (k, v) :: rest => if k = key then some v else json_lookup key rest

def Json.as_int : Json → Option Int
  | Json.int n => some n
  | _ => none

def Json.as_nat : Json → Option Nat
  | Json.int (Int.ofNat n) => some n
  | _ => none

def Json.as_str : Json → Option String
  | Json.str s => some s
  | _ => none

def Json.as_opt_str : Json → Option (Option String)
  | Json.null => some none
  | Json.str s => some (some s)
  | _ => none

/-- Reading a Fault back out of the loaded document, field by field as
report.py subscripts it. -/
def fault_of_json (j : Json) : Option Fault :=
  match j with
  | Json.obj fs => do
    let pid ← (json_lookup "pid" fs).bind Json.as_int
    let cpu ← (json_lookup "cpu" fs).bind Json.as_int
    let timestamp ← (json_lookup "timestamp" fs).bind Json.as_int
    let address ← (json_lookup "address" fs).bind Json.as_str
    let flags ← (json_lookup "flags" fs).bind Json.as_nat
    let ret ← (json_lookup "ret" fs).bind Json.as_nat
    let ty ← (json_lookup "type" fs).bind Json.as_opt_str
    let error ← (json_lookup "error" fs).bind Json.as_int
    pure { pid := pid, cpu := cpu, timestamp := timestamp, address := address,
           flags := flags, ret := ret, type := ty, error := error }
  | _ => none

def frame_of_json (j : Json) : Option Frame :=
  match j with
  | Json.obj fs => do
    let pid ← (json_lookup "pid" fs).bind Json.as_int
    let fid ← (json_lookup "fid" fs).bind Json.as_int
    let lineno ← (json_lookup "lineno" fs).bind Json.as_int
    let timestamp ← (json_lookup "timestamp" fs).bind Json.as_int
    let filename ← (json_lookup "filename" fs).bind Json.as_str
    pure { pid := pid, fid := fid, lineno := lineno, timestamp := timestamp,
           filename := filename }
  | _ => none

def proc_of_json (j : Json) : Option Proc :=
  match j with
  | Json.obj fs => do
    let pid ← (json_lookup "pid" fs).bind Json.as_int
    let ppid ← (json_lookup "ppid" fs).bind Json.as_int
    let timestamp ← (json_lookup "timestamp" fs).bind Json.as_int
    pure { pid := pid, ppid := ppid, timestamp := timestamp }
  | _ => none

/-- Element-wise reading of a JSON array. -/
def map_opt (dec : Json → Option a) : List Json → Option (List a)
  | [] => some []
  | x :: xs => do
    let v ← dec x
    let rest ← map_opt dec xs
    pure (v :: rest)

def trace_of_json (j : Json) : Option TraceOutput :=
  match j with
  | Json.obj fs => do
    let procsJ ← json_lookup "procs" fs
    match procsJ with
    | Json.obj pfs => do
      let root ← (json_lookup "root" pfs).bind Json.as_int
      let relsJ ← json_lookup "rels" pfs
      let rels ← match relsJ with
        | Json.arr xs => map_opt proc_of_json xs
        | _ => none
      let faultsJ ← json_lookup "faults" fs
      let faults ← match faultsJ with
        | Json.arr xs => map_opt fault_of_json xs
        | _ => none
      let framesJ ← json_lookup "frames" fs
      let frames ← match framesJ with
        | Json.arr xs => map_opt frame_of_json xs
        | _ => none
      pure { procs := { root := root, rels := rels }, faults := faults,
             frames := frames }
    | _ => none
  | _ => none

theorem fault_of_to_json (f : Fault) : fault_of_json (fault_to_json f) = some f := by
  obtain ⟨pid, cpu, timestamp, address, flags, ret, ty, error⟩ := f
  cases ty <;> rfl

theorem frame_of_to_json (fr : Frame) : frame_of_json (frame_to_json fr) = some fr := by
  obtain ⟨pid, fid, lineno, timestamp, filename⟩ := fr
  rfl

theorem proc_of_to_json (p : Proc) : proc_of_json (proc_to_json p) = some p := by
  obtain ⟨pid, ppid, timestamp⟩ := p
  rfl

theorem map_opt_round (dec : Json → Option a) (enc : a → Json)
    (h : ∀ x, dec (enc x) = some x) (l : List a) :
    map_opt dec (l.map enc) = some l := by
  induction l with
  | nil => rfl
  | cons x xs ih =>
    rw [List.map_cons]
    unfold map_opt
    rw [h x, ih]
    rfl

/-- Claim C7: round-trip.  Serializing any Trace with TraceOutput.save and
reloading the file with load_trace yields a structurally identical object:
reading the loaded document back out, field by field, recovers exactly the
original — the same fault, process and frame records in the same order,
with the integer microsecond timestamps and the hexadecimal address strings
reproduced without loss. -/
theorem c7_round_trip : ∀ (t : TraceOutput),
    trace_of_json (load_trace (trace_output_save t)) = some t := by
  intro t
  obtain ⟨⟨root, rels⟩, faults, frames⟩ := t
  simp [trace_of_json, load_trace, trace_output_save, json_lookup, Json.as_int,
    map_opt_round proc_of_json proc_to_json proc_of_to_json rels,
    map_opt_round fault_of_json fault_to_json fault_of_to_json faults,
    map_opt_round frame_of_json frame_to_json frame_of_to_json frames]
